import Mathlib

/-
Verification of the asynchronous multi-stage job pipeline of the Podcast
repository: a shallow embedding of the session store (lib/database, mock
branch), the pipeline orchestrator (lib/processing/audio-pipeline.ts), the
background transcription task with its cancellation registry
(app/api/transcribe route) and the analysis route (app/api/analyze/route.ts),
together with theorems about progress mapping, failure handling, cancellation
and stage reruns.

Conventions of the embedding:
* machine numbers that the code treats as exact integers are `Int`;
  JavaScript `Math.round` on nonnegative arguments is `⌊x + 1/2⌋` over `ℚ`
  (for the percentages involved the double-precision evaluation agrees with
  the exact rational one);
* a JavaScript value that may be `undefined`/`null` is an `Option`;
  string truthiness (`if (s)`) is "present and nonempty";
* the session store is modelled after the in-repository mock branch
  (`USE_MOCK_DB`) of DatabaseService, which implements the documented
  contract synchronously in process memory.
-/

/-- Processing statuses, from `ProcessingStatus` in lib/database. -/
inductive ProcessingStatus where
  | PENDING
  | EXTRACTING_AUDIO
  | TRANSCRIBING
  | ANALYZING
  | COMPLETED
  | FAILED
deriving DecidableEq, Repr

/-- One row of the `podcastSessions` store (the fields the pipeline reads or
writes), from `DatabaseService.createPodcastSession` in lib/database. -/
structure PodcastSession where
  status : ProcessingStatus
  progress : Int
  currentStep : Option String
  error : Option String
  audioUrl : Option String
  audioSize : Option Int
  audioDuration : Option Int
  audioFormat : Option String
  title : Option String
  description : Option String
  author : Option String
  thumbnail : Option String
  duration : Option Int
  publishDate : Option String
  transcription : Option String
  transcriptionLanguage : Option String
  transcriptionConfidence : Option ℚ
  summary : Option String
  topics : Option String
  mindmap : Option String
  insights : Option String
deriving DecidableEq, Repr

/-- A freshly created session: status PENDING, progress 0, every optional
field absent (`DatabaseService.createPodcastSession`). -/
def createPodcastSession : PodcastSession where
  status := ProcessingStatus.PENDING
  progress := 0
  currentStep := none
  error := none
  audioUrl := none
  audioSize := none
  audioDuration := none
  audioFormat := none
  title := none
  description := none
  author := none
  thumbnail := none
  duration := none
  publishDate := none
  transcription := none
  transcriptionLanguage := none
  transcriptionConfidence := none
  summary := none
  topics := none
  mindmap := none
  insights := none

/-- JavaScript `x || null` on an optional string: `undefined` and the empty
string both collapse to `null`. -/
def orNull : Option String → Option String
  | none => none
  | some s => if s = "" then none else some s

/-- JavaScript truthiness of an optional string value. -/
def truthy : Option String → Bool
  | none => false
  | some s => s ≠ ""

/-- `DatabaseService.updateProcessingStatus` (mock branch): overwrites
status, progress, currentStep and error; omitted currentStep/error become
null (`currentStep || null`, `error || null`). -/
def updateProcessingStatus (s : PodcastSession) (status : ProcessingStatus)
    (progress : Int) (currentStep : Option String) (error : Option String) :
    PodcastSession :=
  { s with
    status := status
    progress := progress
    currentStep := orNull currentStep
    error := orNull error }

/-- JavaScript `Math.round` on a nonnegative argument: floor of `q + 1/2`. -/
def mathRound (q : ℚ) : Int := Int.floor (q + 1 / 2)

/-- Overall progress reported while extracting:
`Math.round(progress.percentage * 0.6)` (audio-pipeline.ts, extraction
progress callback, "0-60% for extraction"). -/
def extractionOverall (p : ℚ) : Int := mathRound (p * (0.6 : ℚ))

/-- Overall progress reported while transcribing inside the pipeline:
`Math.round(60 + (progress.percentage * 0.3))` (audio-pipeline.ts,
transcription progress callback, "60-90% for transcription"). -/
def transcriptionOverall (p : ℚ) : Int := mathRound (60 + p * (0.3 : ℚ))

/-- The fixed overall percentages the pipeline reports during the analysis
stage (audio-pipeline.ts `analyzeContent`: the ANALYZING status write at 90
and the five `reportProgress` calls at 90, 91, 93, 95, 97, 99). -/
def analysisStageReportPercentages : List Int := [90, 91, 93, 95, 97, 99]

/-- Media metadata returned by an extractor (`AudioMetadata` in
lib/extractors/universal-extractor.ts; the fields the pipeline stores). -/
structure AudioMetadata where
  title : Option String
  description : Option String
  author : Option String
  thumbnail : Option String
  duration : Option Int
  uploadDate : Option String
  format : Option String
deriving DecidableEq, Repr

/-- Result contract of the extraction adapters
(`ExtractionResult`): tagged success, optional audio path, metadata,
file size and error message. -/
structure ExtractionResult where
  success : Bool
  audioPath : Option String
  metadata : Option AudioMetadata
  fileSize : Option Int
  error : Option String
deriving DecidableEq, Repr

/-- Result contract of the transcription adapters
(GeminiTranscriptionService.transcribeAudio): tagged success, optional text,
language, confidence and error message. -/
structure TranscriptionResult where
  success : Bool
  text : Option String
  language : Option String
  confidence : Option ℚ
  error : Option String
deriving DecidableEq, Repr

/-- JavaScript `String.prototype.includes` for a nonempty pattern. -/
def jsIncludes (s pat : String) : Bool := (s.splitOn pat).length != 1

/-- JavaScript template interpolation of a possibly-undefined string:
`${undefined}` renders as "undefined". -/
def jsInterp : Option String → String
  | none => "undefined"
  | some s => s

/-- The database write `AudioProcessingPipeline.extractAudio` performs when
the extractor returns success with an audio path and metadata
(`DatabaseService.updatePodcastSession` with the extraction fields); on any
other result the session is left untouched. -/
def extractionDbUpdate (s : PodcastSession) (r : ExtractionResult) :
    PodcastSession :=
  match r.audioPath, r.metadata with
  | some path, some md =>
    if r.success ∧ path ≠ "" then
      let audioFormat : Option String :=
        if jsIncludes path ".m4a" then some "m4a"
        else if jsIncludes path ".mp3" then some "mp3"
        else match orNull md.format with
          | some f => some f
          | none => some "mp3"
      { s with
        audioUrl := some path
        audioSize := r.fileSize
        audioDuration := md.duration
        audioFormat := audioFormat
        title := md.title
        description := md.description
        author := md.author
        thumbnail := md.thumbnail
        duration := md.duration
        publishDate := if truthy md.uploadDate then md.uploadDate else none }
    else s
  | _, _ => s

/-- Session effect of `AudioProcessingPipeline.transcribeAudio`: the
TRANSCRIBING/60 status write, then — only when the adapter returned success
with a (truthy) text — the write of the three transcription fields. -/
def pipelineTranscribeEffect (s : PodcastSession) (r : TranscriptionResult) :
    PodcastSession :=
  let s1 := updateProcessingStatus s ProcessingStatus.TRANSCRIBING 60
    (some "Starting transcription") none
  if r.success ∧ truthy r.text then
    { s1 with
      transcription := r.text
      transcriptionLanguage := r.language
      transcriptionConfidence := r.confidence }
  else s1

/-- Payload of `openRouterClient.generateSummary` (declared return type
`{summary: string, ...}`; the pipeline stores only `.summary`). -/
structure SummaryData where
  summary : String
deriving DecidableEq, Repr

/-- Uniform analysis sub-task result (`StructuredResponse<T>` in the
OpenRouter client): tagged success plus optional payload.  A present payload
is a JSON object, hence truthy. -/
structure SubResult (α : Type) where
  success : Bool
  data : Option α
deriving DecidableEq, Repr

/-- The four analysis sub-task results consumed by
`AudioProcessingPipeline.analyzeContent`: summary, topics, mindmap,
insights.  Topic/mindmap/insight payloads are opaque JSON bundles, modelled
as strings. -/
structure AnalysisAdapters where
  summaryResult : SubResult SummaryData
  topicsResult : SubResult String
  mindmapResult : SubResult String
  insightsResult : SubResult String
deriving DecidableEq, Repr

/-- Session effect of `AudioProcessingPipeline.analyzeContent` (no-throw
path): the ANALYZING/90 status write, then one `updatePodcastSession` call
storing, for each sub-task, its payload when it succeeded with data and
`undefined` otherwise (`analysisResults.summary?.summary`, `.topics`,
`.mindmap`, `.insights`).  Each sub-task is executed in sequence regardless
of the outcomes of the others. -/
def analyzeContentEffect (s : PodcastSession) (a : AnalysisAdapters) :
    PodcastSession :=
  let s1 := updateProcessingStatus s ProcessingStatus.ANALYZING 90
    (some "Analyzing content") none
  let summaryStored : Option SummaryData :=
    if a.summaryResult.success ∧ a.summaryResult.data.isSome then
      a.summaryResult.data else none
  let topicsStored : Option String :=
    if a.topicsResult.success ∧ a.topicsResult.data.isSome then
      a.topicsResult.data else none
  let mindmapStored : Option String :=
    if a.mindmapResult.success ∧ a.mindmapResult.data.isSome then
      a.mindmapResult.data else none
  let insightsStored : Option String :=
    if a.insightsResult.success ∧ a.insightsResult.data.isSome then
      a.insightsResult.data else none
  { s1 with
    summary := summaryStored.map SummaryData.summary
    topics := topicsStored
    mindmap := mindmapStored
    insights := insightsStored }

/-- The `transcribeAudio` / `analyzeContent` flags of
`AudioProcessingPipeline.processAudio`'s options. -/
structure PipelineOptions where
  transcribeAudio : Bool
  analyzeContent : Bool
deriving DecidableEq, Repr

/-- The `PipelineResult` value `processAudio` returns to its caller. -/
structure PipelineResult where
  success : Bool
  audioPath : Option String
  transcription : Option String
  error : Option String
deriving DecidableEq, Repr

/-- `AudioProcessingPipeline.processAudio`, parameterised by the session
effect of the analysis stage (so that an analysis stage that threw and was
caught is an arbitrary session function): the initial EXTRACTING_AUDIO/0
write, the extraction stage, the fatal throw/catch on extraction failure
(FAILED, progress 0, message "Audio extraction failed: ..."), the optional
transcription stage whose failure is only logged, the optional analysis
stage, and the final COMPLETED/100 write. -/
def processAudioWith (s0 : PodcastSession) (opts : PipelineOptions)
    (ext : ExtractionResult) (tr : TranscriptionResult)
    (analysisEffect : PodcastSession → PodcastSession) :
    PodcastSession × PipelineResult :=
  let s1 := updateProcessingStatus s0 ProcessingStatus.EXTRACTING_AUDIO 0
    (some "Starting audio processing pipeline") none
  let s2 := extractionDbUpdate s1 ext
  if ext.success = false then
    let msg := "Audio extraction failed: " ++ jsInterp ext.error
    let s3 := updateProcessingStatus s2 ProcessingStatus.FAILED 0
      (some "Processing failed") (some msg)
    (s3, { success := false, audioPath := none, transcription := none,
           error := some msg })
  else
    let transcribed := opts.transcribeAudio && truthy ext.audioPath
    let s3 := if transcribed then pipelineTranscribeEffect s2 tr else s2
    let analyzed := opts.analyzeContent && (transcribed && truthy tr.text)
    let s4 := if analyzed then analysisEffect s3 else s3
    let s5 := updateProcessingStatus s4 ProcessingStatus.COMPLETED 100
      (some "Processing completed successfully") none
    (s5, { success := true, audioPath := ext.audioPath,
           transcription := if transcribed then tr.text else none,
           error := none })

/-- `processAudio` with the analysis stage given by the four sub-task
results of `analyzeContent`. -/
def processAudio (s0 : PodcastSession) (opts : PipelineOptions)
    (ext : ExtractionResult) (tr : TranscriptionResult)
    (a : AnalysisAdapters) : PodcastSession × PipelineResult :=
  processAudioWith s0 opts ext tr (fun s => analyzeContentEffect s a)

/-- The ordered list of (status, progress) pairs `processAudio` writes to
the session store through `updateProcessingStatus` (the pipeline's
stage-progress callbacks report to the in-memory subscriber only, not to
the store). -/
def processAudioTrace (opts : PipelineOptions) (ext : ExtractionResult)
    (tr : TranscriptionResult) : List (ProcessingStatus × Int) :=
  let start := [(ProcessingStatus.EXTRACTING_AUDIO, (0 : Int))]
  if ext.success = false then
    start ++ [(ProcessingStatus.FAILED, 0)]
  else
    let transcribed := opts.transcribeAudio && truthy ext.audioPath
    let t := if transcribed then [(ProcessingStatus.TRANSCRIBING, (60 : Int))]
      else []
    let a := if opts.analyzeContent && (transcribed && truthy tr.text) then
      [(ProcessingStatus.ANALYZING, (90 : Int))] else []
    start ++ t ++ a ++ [(ProcessingStatus.COMPLETED, 100)]

/-- One progress event emitted by the Gemini transcription adapter
(`TranscriptionProgress`): stage tag, percentage, optional detected
language. -/
structure GeminiProgress where
  stage : String
  percentage : ℚ
  detectedLanguage : Option String
deriving DecidableEq, Repr

/-- The `currentStep` label the background transcription task derives from a
progress event (the `switch (progress.stage)` in `transcribeAudioAsync` of
the transcribe route). -/
def transcribeAsyncStepLabel (p : GeminiProgress) : String :=
  if p.stage = "initializing" then "Initializing transcription"
  else if p.stage = "uploading" then "Uploading audio for transcription"
  else if p.stage = "processing" then
    "Processing transcription" ++
      (match p.detectedLanguage with
       | some l => " (" ++ l ++ ")"
       | none => "")
  else if p.stage = "complete" then "Transcription completed"
  else "Transcribing audio"

/-- The progress value the background transcription task writes for one
adapter event: `Math.round(progress.percentage * 0.9)` ("0-90% range"). -/
def transcribeAsyncProgressValue (p : GeminiProgress) : Int :=
  mathRound (p.percentage * (0.9 : ℚ))

/-- The status write the background transcription task performs for one
adapter progress event (when not cancelled). -/
def transcribeAsyncProgressWrite (s : PodcastSession) (p : GeminiProgress) :
    PodcastSession :=
  updateProcessingStatus s ProcessingStatus.TRANSCRIBING
    (transcribeAsyncProgressValue p) (some (transcribeAsyncStepLabel p)) none

/-- The write the background transcription task performs after the adapter
returns (when not cancelled): on success with a truthy text, the
`updatePodcastSession` storing COMPLETED/100 and the transcription fields;
otherwise the FAILED/0 status write carrying the adapter's error. -/
def transcribeAsyncFinalWrite (s : PodcastSession) (r : TranscriptionResult) :
    PodcastSession :=
  if r.success ∧ truthy r.text then
    { s with
      status := ProcessingStatus.COMPLETED
      progress := 100
      currentStep := some "Transcription completed"
      transcription := r.text
      transcriptionLanguage := r.language
      transcriptionConfidence := r.confidence }
  else
    updateProcessingStatus s ProcessingStatus.FAILED 0
      (some "Transcription failed") r.error

/-- `transcribeAudioAsync` of the transcribe route when the job is never
cancelled: the TRANSCRIBING/0 status write, one write per adapter progress
event, then the final write. -/
def transcribeAudioAsyncRun (s0 : PodcastSession) (ps : List GeminiProgress)
    (r : TranscriptionResult) : PodcastSession :=
  let s1 := updateProcessingStatus s0 ProcessingStatus.TRANSCRIBING 0
    (some "Starting transcription") none
  let s2 := ps.foldl transcribeAsyncProgressWrite s1
  transcribeAsyncFinalWrite s2 r

/-- The ordered (status, progress) pairs an uncancelled
`transcribeAudioAsync` run writes to the session store. -/
def transcribeAsyncTrace (ps : List GeminiProgress) (r : TranscriptionResult) :
    List (ProcessingStatus × Int) :=
  (ProcessingStatus.TRANSCRIBING, (0 : Int)) ::
    ps.map (fun p => (ProcessingStatus.TRANSCRIBING,
      transcribeAsyncProgressValue p)) ++
    [if r.success ∧ truthy r.text then (ProcessingStatus.COMPLETED, 100)
     else (ProcessingStatus.FAILED, 0)]

/-- `analyzeContentAsync` of the analyze route (no-throw path): the
ANALYZING/10 write, one ANALYZING write per type-selected sub-task (20, 40,
60, 80), the `updatePodcastSession` storing COMPLETED/100 together with the
collected sub-task payloads, and the final COMPLETED/100 status write. -/
def analyzeContentAsyncRun (s0 : PodcastSession) (analysisType : String)
    (a : AnalysisAdapters) : PodcastSession :=
  let s1 := updateProcessingStatus s0 ProcessingStatus.ANALYZING 10
    (some "Starting AI content analysis") none
  let doSummary := analysisType = "comprehensive" ∨ analysisType = "summary"
  let doTopics := analysisType = "comprehensive" ∨ analysisType = "topics"
  let doMindmap := analysisType = "comprehensive" ∨ analysisType = "mindmap"
  let doInsights := analysisType = "comprehensive" ∨ analysisType = "insights"
  let s2 := if doSummary then updateProcessingStatus s1
    ProcessingStatus.ANALYZING 20 (some "Generating summary...") none else s1
  let s3 := if doTopics then updateProcessingStatus s2
    ProcessingStatus.ANALYZING 40 (some "Extracting topics and themes...")
    none else s2
  let s4 := if doMindmap then updateProcessingStatus s3
    ProcessingStatus.ANALYZING 60 (some "Creating mindmap structure...")
    none else s3
  let s5 := if doInsights then updateProcessingStatus s4
    ProcessingStatus.ANALYZING 80 (some "Generating insights and advice...")
    none else s4
  let summaryStored : Option SummaryData :=
    if doSummary ∧ a.summaryResult.success ∧ a.summaryResult.data.isSome then
      a.summaryResult.data else none
  let topicsStored : Option String :=
    if doTopics ∧ a.topicsResult.success ∧ a.topicsResult.data.isSome then
      a.topicsResult.data else none
  let mindmapStored : Option String :=
    if doMindmap ∧ a.mindmapResult.success ∧ a.mindmapResult.data.isSome then
      a.mindmapResult.data else none
  let insightsStored : Option String :=
    if doInsights ∧ a.insightsResult.success ∧ a.insightsResult.data.isSome
    then a.insightsResult.data else none
  let s6 := { s5 with
    status := ProcessingStatus.COMPLETED
    progress := 100
    currentStep := some "Analysis completed"
    summary := summaryStored.map SummaryData.summary
    topics := topicsStored
    mindmap := mindmapStored
    insights := insightsStored }
  updateProcessingStatus s6 ProcessingStatus.COMPLETED 100
    (some "Analysis completed successfully") none

/-- First (status, progress) pair `analyzeContentAsync` writes: the
ANALYZING/10 write performed before any sub-task runs. -/
def analyzeAsyncFirstWrite : ProcessingStatus × Int :=
  (ProcessingStatus.ANALYZING, 10)

/-- The `activeTranscriptions` map of the transcribe route holds `true` for
every registered job, so `Map.get` is membership of the key list, with
JavaScript's `undefined` for a missing entry reading as `false`. -/
def activeGet (activeTranscriptions : List String) (sessionId : String) :
    Bool :=
  activeTranscriptions.contains sessionId

/-- The state of one job as seen by the background transcription task and
the DELETE handler: whether the job's `activeTranscriptions` entry is
present, and the job's session row. -/
structure JobState where
  active : Bool
  session : PodcastSession
deriving DecidableEq, Repr

/-- The session write the DELETE (cancel) handler performs after removing
the entry: status back to COMPLETED, progress 60, step "Transcription
cancelled", no error. -/
def cancelWrite (s : PodcastSession) : PodcastSession :=
  updateProcessingStatus s ProcessingStatus.COMPLETED 60
    (some "Transcription cancelled") none

/-- HTTP outcome of the DELETE (cancel) handler. -/
inductive CancelHttp where
  | ok
  | notFound
deriving DecidableEq, Repr

/-- The DELETE handler of the transcribe route: if the job has an
`activeTranscriptions` entry, remove it (cancelling the running service)
and write the cancelled state, answering with the CANCELLED confirmation;
otherwise answer 404 and change nothing. -/
def deleteHandler (st : JobState) : CancelHttp × JobState :=
  if st.active then
    (CancelHttp.ok, { active := false, session := cancelWrite st.session })
  else
    (CancelHttp.notFound, st)

/-- One step of the background transcription task, each guarded by the
cancellation check `if (!activeTranscriptions.get(sessionId))`: the start
checkpoint with the initial TRANSCRIBING/0 write, a progress-callback
checkpoint with its status write, and the post-completion checkpoint with
the final write.  (In the source a failed start or post-completion
checkpoint returns from the task and a failed callback checkpoint skips the
write; since no step ever re-creates the entry, guarding every step yields
the same session.) -/
inductive TaskStep where
  | start
  | progressEvent (p : GeminiProgress)
  | finish (r : TranscriptionResult)
deriving DecidableEq, Repr

/-- Whether a task step is the post-completion write. -/
def TaskStep.isFinish : TaskStep → Bool
  | TaskStep.finish _ => true
  | _ => false

/-- Execute one task step against the job state. -/
def runTaskStep (st : JobState) : TaskStep → JobState
  | TaskStep.start =>
    if st.active then
      { st with session := (updateProcessingStatus st.session
          ProcessingStatus.TRANSCRIBING 0 (some "Starting transcription")
          none) }
    else st
  | TaskStep.progressEvent p =>
    if st.active then
      { st with session := transcribeAsyncProgressWrite st.session p }
    else st
  | TaskStep.finish r =>
    if st.active then
      { st with session := transcribeAsyncFinalWrite st.session r }
    else st

/-- Execute a list of task steps in order. -/
def runTask (st : JobState) (steps : List TaskStep) : JobState :=
  steps.foldl runTaskStep st

/-- The full step sequence of one `transcribeAudioAsync` task whose adapter
emits the events `ps` and returns `r`. -/
def taskSteps (ps : List GeminiProgress) (r : TranscriptionResult) :
    List TaskStep :=
  TaskStep.start :: ps.map TaskStep.progressEvent ++ [TaskStep.finish r]

/-- One interleaved execution of a `transcribeAudioAsync` task and a single
DELETE (cancel) request arriving after the task's first `c` steps: the task
runs `c` steps with the entry present, the DELETE handler runs, and the
remaining steps run against the resulting state. -/
def runWithCancelAt (c : ℕ) (s0 : PodcastSession) (ps : List GeminiProgress)
    (r : TranscriptionResult) : JobState :=
  let steps := taskSteps ps r
  let st1 := runTask { active := true, session := s0 } (steps.take c)
  let st2 := (deleteHandler st1).2
  runTask st2 (steps.drop c)

/-- The clearing write of the transcribe route's POST handler when the
session already holds a transcription ("allow re-transcription"):
transcription, transcriptionLanguage and transcriptionConfidence are set to
null before the background task is launched. -/
def transcribePostClear (s : PodcastSession) : PodcastSession :=
  if truthy s.transcription then
    { s with
      transcription := none
      transcriptionLanguage := none
      transcriptionConfidence := none }
  else s

/-- The clearing write of the analyze route's POST handler when the session
already holds any analysis result ("allow re-analysis"): all four of
summary, topics, mindmap and insights are set to null before the background
analysis is launched. -/
def analyzePostClear (s : PodcastSession) : PodcastSession :=
  if truthy s.summary || s.topics.isSome || s.mindmap.isSome ||
      s.insights.isSome then
    { s with
      summary := none
      topics := none
      mindmap := none
      insights := none }
  else s

/-! Concrete adapter results used as test inputs in witnesses and
counterexamples. -/

/-- Metadata of a concrete successful extraction. -/
def mdFixture : AudioMetadata where
  title := some "Episode 1"
  description := some "A show"
  author := some "Host"
  thumbnail := some "https://example.com/t.jpg"
  duration := some 600
  uploadDate := some "2024-01-01"
  format := some "mp3"

/-- A concrete successful extraction result. -/
def extOkFixture : ExtractionResult where
  success := true
  audioPath := some "/tmp/audio.mp3"
  metadata := some mdFixture
  fileSize := some 1000
  error := none

/-- A concrete failed extraction result with the "platform not supported"
message of the spec's scenario B. -/
def extFailFixture : ExtractionResult where
  success := false
  audioPath := none
  metadata := none
  fileSize := none
  error := some "platform not supported"

/-- A concrete successful transcription result. -/
def trOkFixture : TranscriptionResult where
  success := true
  text := some "hello transcript"
  language := some "en"
  confidence := some (9 / 10)
  error := none

/-- A concrete failed transcription result. -/
def trFailFixture : TranscriptionResult where
  success := false
  text := none
  language := none
  confidence := none
  error := some "boom"

/-- A concrete adapter progress event at 50%. -/
def p50Fixture : GeminiProgress where
  stage := "processing"
  percentage := 50
  detectedLanguage := none

/-- Analysis sub-task results in which every sub-task succeeds. -/
def aAllOkFixture : AnalysisAdapters where
  summaryResult := { success := true, data := some { summary := "sum" } }
  topicsResult := { success := true, data := some "topics-json" }
  mindmapResult := { success := true, data := some "mindmap-json" }
  insightsResult := { success := true, data := some "insights-json" }

/-- Analysis sub-task results in which every sub-task fails. -/
def aAllFailFixture : AnalysisAdapters where
  summaryResult := { success := false, data := none }
  topicsResult := { success := false, data := none }
  mindmapResult := { success := false, data := none }
  insightsResult := { success := false, data := none }

/-- Analysis sub-task results in which only the mindmap sub-task fails. -/
def aMindmapFailFixture : AnalysisAdapters where
  summaryResult := { success := true, data := some { summary := "sum" } }
  topicsResult := { success := true, data := some "topics-json" }
  mindmapResult := { success := false, data := none }
  insightsResult := { success := true, data := some "insights-json" }

/-! Helper lemmas about the JavaScript rounding embedding. -/

theorem mathRound_ge (q : ℚ) (z : ℤ) (h : (z : ℚ) ≤ q + 1 / 2) :
    z ≤ mathRound q := by
  unfold mathRound
  exact Int.le_floor.mpr h

theorem mathRound_le (q : ℚ) (z : ℤ) (h : q < (z : ℚ) + 1 / 2) :
    mathRound q ≤ z := by
  unfold mathRound
  have : Int.floor (q + 1 / 2) < z + 1 := by
    apply Int.floor_lt.mpr
    push_cast
    linarith
  omega

theorem mathRound_mono {p q : ℚ} (h : p ≤ q) : mathRound p ≤ mathRound q := by
  unfold mathRound
  exact Int.floor_mono (by linarith)

theorem mathRound_eq (q : ℚ) (z : ℤ) (h1 : (z : ℚ) ≤ q + 1 / 2)
    (h2 : q + 1 / 2 < (z : ℚ) + 1) : mathRound q = z := by
  unfold mathRound
  exact Int.floor_eq_iff.mpr ⟨h1, h2⟩

/-- Claim C1: for every adapter-reported percentage p in [0,100], the
orchestrator's overall progress equals the stage's affine mapping —
`round(p*0.6)` during ExtractingAudio, lying in [0,60]; `round(60+p*0.3)`
during Transcribing, lying in [60,90]; and during Analyzing every reported
overall percentage lies in [90,100]. -/
theorem C1_stage_progress_mapping (p : ℚ) (h0 : 0 ≤ p) (h1 : p ≤ 100) :
    extractionOverall p = mathRound (p * (0.6 : ℚ)) ∧
    (0 ≤ extractionOverall p ∧ extractionOverall p ≤ 60) ∧
    transcriptionOverall p = mathRound (60 + p * (0.3 : ℚ)) ∧
    (60 ≤ transcriptionOverall p ∧ transcriptionOverall p ≤ 90) ∧
    (∀ q ∈ analysisStageReportPercentages, 90 ≤ q ∧ q ≤ 100) := by
  have h06 : (0.6 : ℚ) = 3 / 5 := by norm_num
  have h03 : (0.3 : ℚ) = 3 / 10 := by norm_num
  refine ⟨rfl, ⟨?_, ?_⟩, rfl, ⟨?_, ?_⟩, by decide⟩
  · exact mathRound_ge _ 0 (by rw [h06]; push_cast; linarith)
  · exact mathRound_le _ 60 (by rw [h06]; push_cast; linarith)
  · exact mathRound_ge _ 60 (by rw [h03]; push_cast; linarith)
  · exact mathRound_le _ 90 (by rw [h03]; push_cast; linarith)

/-- Witness for C1 at the concrete adapter percentage 50. -/
theorem C1_stage_progress_mapping_witness :
    extractionOverall 50 = mathRound ((50 : ℚ) * (0.6 : ℚ)) ∧
    (0 ≤ extractionOverall 50 ∧ extractionOverall 50 ≤ 60) ∧
    transcriptionOverall 50 = mathRound (60 + (50 : ℚ) * (0.3 : ℚ)) ∧
    (60 ≤ transcriptionOverall 50 ∧ transcriptionOverall 50 ≤ 90) ∧
    (∀ q ∈ analysisStageReportPercentages, 90 ≤ q ∧ q ≤ 100) :=
  C1_stage_progress_mapping 50 (by norm_num) (by norm_num)

/-! Helper lemmas about the pipeline's session writes. -/

theorem append_ne_empty_left (a b : String) (h : a ≠ "") : a ++ b ≠ "" := by
  intro hc
  apply h
  have hd := congrArg String.data hc
  rw [String.data_append] at hd
  have ha : a.data = [] := (List.append_eq_nil.mp hd).1
  exact String.ext (by simpa using ha)

theorem extractionDbUpdate_preserves (s : PodcastSession)
    (r : ExtractionResult) :
    (extractionDbUpdate s r).transcription = s.transcription ∧
    (extractionDbUpdate s r).transcriptionLanguage =
      s.transcriptionLanguage ∧
    (extractionDbUpdate s r).transcriptionConfidence =
      s.transcriptionConfidence ∧
    (extractionDbUpdate s r).status = s.status ∧
    (extractionDbUpdate s r).progress = s.progress ∧
    (extractionDbUpdate s r).error = s.error ∧
    (extractionDbUpdate s r).summary = s.summary ∧
    (extractionDbUpdate s r).topics = s.topics ∧
    (extractionDbUpdate s r).mindmap = s.mindmap ∧
    (extractionDbUpdate s r).insights = s.insights := by
  unfold extractionDbUpdate
  rcases r.audioPath with _ | path <;> rcases r.metadata with _ | md <;> simp
  split <;> simp

/-- Claim C2 is false as stated: on the spec's own scenario-B input (the
adapter fails with "platform not supported") the session does end Failed
with no transcript, but its error field holds the adapter message with the
prefix "Audio extraction failed: " added by the pipeline's throw site, not
the adapter message verbatim. -/
theorem C2_counterexample :
    (processAudio createPodcastSession ⟨true, true⟩ extFailFixture
      trOkFixture aAllOkFixture).1.status = ProcessingStatus.FAILED ∧
    (processAudio createPodcastSession ⟨true, true⟩ extFailFixture
      trOkFixture aAllOkFixture).1.error =
      some "Audio extraction failed: platform not supported" ∧
    (processAudio createPodcastSession ⟨true, true⟩ extFailFixture
      trOkFixture aAllOkFixture).1.error ≠ some "platform not supported" ∧
    (processAudio createPodcastSession ⟨true, true⟩ extFailFixture
      trOkFixture aAllOkFixture).1.transcription = none := by
  refine ⟨by decide, by decide, by decide, by decide⟩

/-- Claim C2 (corrected): for every run in which the extraction adapter
returns success=false with message e, the pipeline ends with the session
Failed, its error field equal to "Audio extraction failed: " ++ e (the
adapter's message behind the pipeline's fixed throw-site text, not
verbatim), progress forced to 0, and no transcript present. -/
theorem C2_extraction_failure_fatal (s0 : PodcastSession)
    (opts : PipelineOptions) (ext : ExtractionResult)
    (tr : TranscriptionResult) (a : AnalysisAdapters) (e : String)
    (hs : s0.transcription = none) (hfail : ext.success = false)
    (herr : ext.error = some e) :
    (processAudio s0 opts ext tr a).1.status = ProcessingStatus.FAILED ∧
    (processAudio s0 opts ext tr a).1.error =
      some ("Audio extraction failed: " ++ e) ∧
    (processAudio s0 opts ext tr a).1.progress = 0 ∧
    (processAudio s0 opts ext tr a).1.transcription = none := by
  have hne : ("Audio extraction failed: " ++ e) ≠ "" :=
    append_ne_empty_left _ _ (by decide)
  have hpres := (extractionDbUpdate_preserves
    (updateProcessingStatus s0 ProcessingStatus.EXTRACTING_AUDIO 0
      (some "Starting audio processing pipeline") none) ext).1
  unfold processAudio processAudioWith
  rw [hfail]
  simp only [if_true, ite_true, herr, jsInterp]
  refine ⟨rfl, ?_, rfl, ?_⟩
  · simp [updateProcessingStatus, orNull, hne]
  · simp [updateProcessingStatus, orNull] at hpres ⊢
    rw [hpres]
    simpa [updateProcessingStatus] using hs

/-- Witness for the corrected C2 at the concrete scenario-B input. -/
theorem C2_extraction_failure_fatal_witness :
    (processAudio createPodcastSession ⟨true, true⟩ extFailFixture
      trOkFixture aAllOkFixture).1.status = ProcessingStatus.FAILED ∧
    (processAudio createPodcastSession ⟨true, true⟩ extFailFixture
      trOkFixture aAllOkFixture).1.error =
      some ("Audio extraction failed: " ++ "platform not supported") ∧
    (processAudio createPodcastSession ⟨true, true⟩ extFailFixture
      trOkFixture aAllOkFixture).1.progress = 0 ∧
    (processAudio createPodcastSession ⟨true, true⟩ extFailFixture
      trOkFixture aAllOkFixture).1.transcription = none :=
  C2_extraction_failure_fatal createPodcastSession ⟨true, true⟩
    extFailFixture trOkFixture aAllOkFixture "platform not supported"
    rfl rfl rfl

/-- Claim C3: a job started with transcribeAudio=true and
analyzeContent=false whose extraction succeeds and whose transcription
adapter returns success=false still ends with the session Completed at
progress 100, the transcription fields absent, and no error on the session
(the pipeline only logs the transcription failure and continues). -/
theorem C3_transcription_soft_failure (s0 : PodcastSession)
    (ext : ExtractionResult) (tr : TranscriptionResult)
    (a : AnalysisAdapters)
    (h1 : s0.transcription = none) (h2 : s0.transcriptionLanguage = none)
    (h3 : s0.transcriptionConfidence = none)
    (hext : ext.success = true) (htr : tr.success = false) :
    (processAudio s0 ⟨true, false⟩ ext tr a).1.status =
      ProcessingStatus.COMPLETED ∧
    (processAudio s0 ⟨true, false⟩ ext tr a).1.progress = 100 ∧
    (processAudio s0 ⟨true, false⟩ ext tr a).1.transcription = none ∧
    (processAudio s0 ⟨true, false⟩ ext tr a).1.transcriptionLanguage =
      none ∧
    (processAudio s0 ⟨true, false⟩ ext tr a).1.transcriptionConfidence =
      none ∧
    (processAudio s0 ⟨true, false⟩ ext tr a).1.error = none := by
  have hpres := extractionDbUpdate_preserves
    (updateProcessingStatus s0 ProcessingStatus.EXTRACTING_AUDIO 0
      (some "Starting audio processing pipeline") none) ext
  unfold processAudio processAudioWith
  rw [hext]
  simp only [Bool.true_and, Bool.false_and, if_false, ite_false,
    Bool.false_eq_true]
  cases htru : truthy ext.audioPath <;>
    simp_all [pipelineTranscribeEffect, updateProcessingStatus, orNull, htr]

/-- Witness for C3 at concrete adapter results. -/
theorem C3_transcription_soft_failure_witness :
    (processAudio createPodcastSession ⟨true, false⟩ extOkFixture
      trFailFixture aAllOkFixture).1.status = ProcessingStatus.COMPLETED ∧
    (processAudio createPodcastSession ⟨true, false⟩ extOkFixture
      trFailFixture aAllOkFixture).1.progress = 100 ∧
    (processAudio createPodcastSession ⟨true, false⟩ extOkFixture
      trFailFixture aAllOkFixture).1.transcription = none ∧
    (processAudio createPodcastSession ⟨true, false⟩ extOkFixture
      trFailFixture aAllOkFixture).1.transcriptionLanguage = none ∧
    (processAudio createPodcastSession ⟨true, false⟩ extOkFixture
      trFailFixture aAllOkFixture).1.transcriptionConfidence = none ∧
    (processAudio createPodcastSession ⟨true, false⟩ extOkFixture
      trFailFixture aAllOkFixture).1.error = none :=
  C3_transcription_soft_failure createPodcastSession extOkFixture
    trFailFixture aAllOkFixture rfl rfl rfl rfl rfl

/-- Claim C4: during the Analyzing stage all four sub-tasks (summary,
topics, mindmap, insights) are attempted regardless of the others'
outcomes — each stored field depends only on its own sub-task's result —
and exactly the succeeding sub-tasks' fields are stored, the absent ones
being the failing ones; moreover an analysis stage with any session effect
whatsoever (including one that threw and was caught) never prevents a job
whose extraction succeeded from ending Completed at progress 100. -/
theorem C4_analysis_subtasks_independent
    (s : PodcastSession) (a a' : AnalysisAdapters)
    (s0 : PodcastSession) (opts : PipelineOptions) (ext : ExtractionResult)
    (tr : TranscriptionResult) (g : PodcastSession → PodcastSession)
    (hext : ext.success = true) :
    ((analyzeContentEffect s a).summary.isSome =
      (a.summaryResult.success && a.summaryResult.data.isSome)) ∧
    ((analyzeContentEffect s a).topics =
      if a.topicsResult.success ∧ a.topicsResult.data.isSome then
        a.topicsResult.data else none) ∧
    ((analyzeContentEffect s a).mindmap =
      if a.mindmapResult.success ∧ a.mindmapResult.data.isSome then
        a.mindmapResult.data else none) ∧
    ((analyzeContentEffect s a).insights =
      if a.insightsResult.success ∧ a.insightsResult.data.isSome then
        a.insightsResult.data else none) ∧
    (a.summaryResult = a'.summaryResult →
      (analyzeContentEffect s a).summary =
        (analyzeContentEffect s a').summary) ∧
    (a.topicsResult = a'.topicsResult →
      (analyzeContentEffect s a).topics =
        (analyzeContentEffect s a').topics) ∧
    (a.mindmapResult = a'.mindmapResult →
      (analyzeContentEffect s a).mindmap =
        (analyzeContentEffect s a').mindmap) ∧
    (a.insightsResult = a'.insightsResult →
      (analyzeContentEffect s a).insights =
        (analyzeContentEffect s a').insights) ∧
    ((processAudioWith s0 opts ext tr g).1.status =
      ProcessingStatus.COMPLETED ∧
     (processAudioWith s0 opts ext tr g).1.progress = 100) := by
  refine ⟨?_, ?_, ?_, ?_, ?_, ?_, ?_, ?_, ?_⟩
  · unfold analyzeContentEffect
    split_ifs with h <;> simp_all
  · unfold analyzeContentEffect
    split_ifs with h <;> simp_all
  · unfold analyzeContentEffect
    split_ifs with h <;> simp_all
  · unfold analyzeContentEffect
    split_ifs with h <;> simp_all
  · intro h
    unfold analyzeContentEffect
    rw [h]
  · intro h
    unfold analyzeContentEffect
    rw [h]
  · intro h
    unfold analyzeContentEffect
    rw [h]
  · intro h
    unfold analyzeContentEffect
    rw [h]
  · unfold processAudioWith
    rw [hext]
    simp [updateProcessingStatus, orNull]

/-- Witness for C4 at concrete inputs: only the mindmap sub-task fails, and
the pipeline runs with a successful extraction. -/
theorem C4_analysis_subtasks_independent_witness :
    ((analyzeContentEffect createPodcastSession
      aMindmapFailFixture).summary.isSome =
      (aMindmapFailFixture.summaryResult.success &&
        aMindmapFailFixture.summaryResult.data.isSome)) ∧
    ((analyzeContentEffect createPodcastSession aMindmapFailFixture).topics =
      if aMindmapFailFixture.topicsResult.success ∧
          aMindmapFailFixture.topicsResult.data.isSome then
        aMindmapFailFixture.topicsResult.data else none) ∧
    ((analyzeContentEffect createPodcastSession
      aMindmapFailFixture).mindmap =
      if aMindmapFailFixture.mindmapResult.success ∧
          aMindmapFailFixture.mindmapResult.data.isSome then
        aMindmapFailFixture.mindmapResult.data else none) ∧
    ((analyzeContentEffect createPodcastSession
      aMindmapFailFixture).insights =
      if aMindmapFailFixture.insightsResult.success ∧
          aMindmapFailFixture.insightsResult.data.isSome then
        aMindmapFailFixture.insightsResult.data else none) ∧
    (aMindmapFailFixture.summaryResult = aAllOkFixture.summaryResult →
      (analyzeContentEffect createPodcastSession
        aMindmapFailFixture).summary =
        (analyzeContentEffect createPodcastSession aAllOkFixture).summary) ∧
    (aMindmapFailFixture.topicsResult = aAllOkFixture.topicsResult →
      (analyzeContentEffect createPodcastSession
        aMindmapFailFixture).topics =
        (analyzeContentEffect createPodcastSession aAllOkFixture).topics) ∧
    (aMindmapFailFixture.mindmapResult = aAllOkFixture.mindmapResult →
      (analyzeContentEffect createPodcastSession
        aMindmapFailFixture).mindmap =
        (analyzeContentEffect createPodcastSession aAllOkFixture).mindmap) ∧
    (aMindmapFailFixture.insightsResult = aAllOkFixture.insightsResult →
      (analyzeContentEffect createPodcastSession
        aMindmapFailFixture).insights =
        (analyzeContentEffect createPodcastSession
          aAllOkFixture).insights) ∧
    ((processAudioWith createPodcastSession ⟨true, true⟩ extOkFixture
      trOkFixture id).1.status = ProcessingStatus.COMPLETED ∧
     (processAudioWith createPodcastSession ⟨true, true⟩ extOkFixture
      trOkFixture id).1.progress = 100) :=
  C4_analysis_subtasks_independent createPodcastSession aMindmapFailFixture
    aAllOkFixture createPodcastSession ⟨true, true⟩ extOkFixture trOkFixture
    id rfl

/-- Claim C5 is false as stated: in a background transcription run whose
adapter reported 50% (stored progress 45) and then failed, the transition
to Failed does populate the error message, but the stored progress becomes
0, not the 45 the session held immediately before the transition. -/
theorem C5_counterexample :
    (List.foldl transcribeAsyncProgressWrite
      (updateProcessingStatus createPodcastSession
        ProcessingStatus.TRANSCRIBING 0 (some "Starting transcription") none)
      [p50Fixture]).progress = 45 ∧
    (transcribeAudioAsyncRun createPodcastSession [p50Fixture]
      trFailFixture).status = ProcessingStatus.FAILED ∧
    (transcribeAudioAsyncRun createPodcastSession [p50Fixture]
      trFailFixture).error = some "boom" ∧
    (transcribeAudioAsyncRun createPodcastSession [p50Fixture]
      trFailFixture).progress = 0 ∧
    (transcribeAudioAsyncRun createPodcastSession [p50Fixture]
      trFailFixture).progress ≠ 45 := by
  have h45 : mathRound ((50 : ℚ) * (0.9 : ℚ)) = 45 :=
    mathRound_eq _ 45 (by norm_num) (by norm_num)
  refine ⟨?_, by decide, by decide, by decide, by decide⟩
  simp [transcribeAsyncProgressWrite, transcribeAsyncProgressValue,
    updateProcessingStatus, p50Fixture, h45]

/-- Claim C5 (corrected): on every transition to Failed the session's error
field is populated with the reported failure message, and the session's
progress is forced to 0, regardless of the value it held immediately
before the transition — both at the pipeline's extraction-failure catch
and at the background transcription task's failure write. -/
theorem C5_failed_forces_progress_zero
    (s0 : PodcastSession) (opts : PipelineOptions) (ext : ExtractionResult)
    (tr : TranscriptionResult) (a : AnalysisAdapters)
    (ps : List GeminiProgress) (r : TranscriptionResult) (m : String)
    (hfail : ext.success = false)
    (hr : r.success = false) (hm : r.error = some m) (hne : m ≠ "") :
    ((processAudio s0 opts ext tr a).1.status = ProcessingStatus.FAILED ∧
     (processAudio s0 opts ext tr a).1.progress = 0 ∧
     (processAudio s0 opts ext tr a).1.error ≠ none) ∧
    ((transcribeAudioAsyncRun s0 ps r).status = ProcessingStatus.FAILED ∧
     (transcribeAudioAsyncRun s0 ps r).progress = 0 ∧
     (transcribeAudioAsyncRun s0 ps r).error = some m) := by
  constructor
  · have hmsg : ("Audio extraction failed: " ++ jsInterp ext.error) ≠ "" :=
      append_ne_empty_left _ _ (by decide)
    unfold processAudio processAudioWith
    rw [hfail]
    simp [updateProcessingStatus, orNull, hmsg]
  · unfold transcribeAudioAsyncRun transcribeAsyncFinalWrite
    rw [hr]
    simp [updateProcessingStatus, orNull, hm, hne]

/-- Witness for the corrected C5 at concrete failing adapter results. -/
theorem C5_failed_forces_progress_zero_witness :
    ((processAudio createPodcastSession ⟨true, true⟩ extFailFixture
      trOkFixture aAllOkFixture).1.status = ProcessingStatus.FAILED ∧
     (processAudio createPodcastSession ⟨true, true⟩ extFailFixture
      trOkFixture aAllOkFixture).1.progress = 0 ∧
     (processAudio createPodcastSession ⟨true, true⟩ extFailFixture
      trOkFixture aAllOkFixture).1.error ≠ none) ∧
    ((transcribeAudioAsyncRun createPodcastSession [p50Fixture]
      trFailFixture).status = ProcessingStatus.FAILED ∧
     (transcribeAudioAsyncRun createPodcastSession [p50Fixture]
      trFailFixture).progress = 0 ∧
     (transcribeAudioAsyncRun createPodcastSession [p50Fixture]
      trFailFixture).error = some "boom") :=
  C5_failed_forces_progress_zero createPodcastSession ⟨true, true⟩
    extFailFixture trOkFixture aAllOkFixture [p50Fixture] trFailFixture
    "boom" rfl rfl rfl (by decide)

/-! Helper lemmas about the background transcription task's progress
values. -/

theorem transcribeValue_nonneg (p : GeminiProgress)
    (h : 0 ≤ p.percentage) : 0 ≤ transcribeAsyncProgressValue p := by
  apply mathRound_ge
  have h09 : (0.9 : ℚ) = 9 / 10 := by norm_num
  rw [h09]
  push_cast
  linarith

theorem transcribeValue_le (p : GeminiProgress)
    (h : p.percentage ≤ 100) : transcribeAsyncProgressValue p ≤ 90 := by
  apply mathRound_le
  have h09 : (0.9 : ℚ) = 9 / 10 := by norm_num
  rw [h09]
  push_cast
  linarith

theorem transcribeValue_mono (p q : GeminiProgress)
    (h : p.percentage ≤ q.percentage) :
    transcribeAsyncProgressValue p ≤ transcribeAsyncProgressValue q := by
  apply mathRound_mono
  have h09 : (0.9 : ℚ) = 9 / 10 := by norm_num
  rw [h09]
  linarith

theorem transcribeTraceChain_aux (v : Int) (l : List GeminiProgress)
    (hl : List.Chain' (fun p q => p.percentage ≤ q.percentage) l)
    (hb : ∀ p ∈ l, 0 ≤ p.percentage ∧ p.percentage ≤ 100)
    (hv : v ≤ 100)
    (hhead : ∀ p ∈ l.head?, v ≤ transcribeAsyncProgressValue p) :
    List.Chain' (fun a b : ProcessingStatus × Int => a.2 ≤ b.2)
      ((ProcessingStatus.TRANSCRIBING, v) ::
        l.map (fun p => (ProcessingStatus.TRANSCRIBING,
          transcribeAsyncProgressValue p)) ++
        [(ProcessingStatus.COMPLETED, 100)]) := by
  induction l generalizing v with
  | nil => simpa using hv
  | cons p rest ih =>
    have hp := hb p (List.mem_cons_self p rest)
    have hvp : v ≤ transcribeAsyncProgressValue p := hhead p (by simp)
    have hrest : List.Chain'
        (fun a b : ProcessingStatus × Int => a.2 ≤ b.2)
        ((ProcessingStatus.TRANSCRIBING, transcribeAsyncProgressValue p) ::
          rest.map (fun q => (ProcessingStatus.TRANSCRIBING,
            transcribeAsyncProgressValue q)) ++
          [(ProcessingStatus.COMPLETED, 100)]) := by
      apply ih
      · exact hl.tail
      · intro q hq
        exact hb q (List.mem_cons_of_mem p hq)
      · have h90 := transcribeValue_le p hp.2
        omega
      · intro q hq
        apply transcribeValue_mono
        rcases rest with _ | ⟨q0, rest'⟩
        · simp at hq
        · simp at hq
          subst hq
          exact (List.chain'_cons.mp hl).1
    rw [List.map_cons, List.cons_append, List.cons_append,
      List.chain'_cons]
    exact ⟨hvp, by simpa using hrest⟩

/-- Claim C6 is false as stated: after a completed run (last stored
progress 100), a transcription rerun's first store write is
(TRANSCRIBING, 0) — a decrease whose target is 0, not the Transcribing
stage's start bound 60 (the value of the stage's affine mapping at 0%), so
the decrease is not the reset the claim permits. -/
theorem C6_counterexample :
    (processAudioTrace ⟨true, false⟩ extOkFixture trOkFixture).getLast? =
      some (ProcessingStatus.COMPLETED, 100) ∧
    (transcribeAsyncTrace [] trFailFixture).head? =
      some (ProcessingStatus.TRANSCRIBING, 0) ∧
    transcriptionOverall 0 = 60 ∧
    ((0 : Int) ≠ 60) ∧
    ¬ ((100 : Int) ≤ 0) := by
  refine ⟨by decide, by decide, ?_, by decide, by decide⟩
  exact mathRound_eq _ 60 (by norm_num) (by norm_num)

/-- Claim C6 (corrected): within one uninterrupted run the progress values
written to the store are non-decreasing — unconditionally for the
pipeline's own writes, and for a background transcription run whenever the
adapter's reported percentages are non-decreasing and in range and the
adapter succeeds; a stage rerun, however, resets progress to the rerun
path's own start (0 for re-transcription, whose stage is mapped onto 0–90,
and 10 for re-analysis), not to the §4.2 stage start bound. -/
theorem C6_progress_monotone_within_run
    (opts : PipelineOptions) (ext : ExtractionResult)
    (tr : TranscriptionResult) (ps : List GeminiProgress)
    (r : TranscriptionResult)
    (hmono : List.Chain' (fun p q : GeminiProgress =>
      p.percentage ≤ q.percentage) ps)
    (hbound : ∀ p ∈ ps, 0 ≤ p.percentage ∧ p.percentage ≤ 100)
    (hr : r.success = true) (ht : truthy r.text = true) :
    List.Chain' (fun a b : ProcessingStatus × Int => a.2 ≤ b.2)
      (processAudioTrace opts ext tr) ∧
    List.Chain' (fun a b : ProcessingStatus × Int => a.2 ≤ b.2)
      (transcribeAsyncTrace ps r) ∧
    (transcribeAsyncTrace ps r).head? =
      some (ProcessingStatus.TRANSCRIBING, 0) ∧
    analyzeAsyncFirstWrite = (ProcessingStatus.ANALYZING, 10) := by
  refine ⟨?_, ?_, ?_, rfl⟩
  · cases hes : ext.success <;>
      cases hot : opts.transcribeAudio <;>
        cases hoa : opts.analyzeContent <;>
          cases htp : truthy ext.audioPath <;>
            cases htt : truthy tr.text <;>
              simp [processAudioTrace, hes, hot, hoa, htp, htt]
  · unfold transcribeAsyncTrace
    rw [if_pos ⟨hr, ht⟩]
    exact transcribeTraceChain_aux 0 ps hmono hbound (by norm_num)
      (fun p hp => transcribeValue_nonneg p
        (hbound p (List.mem_of_mem_head? hp)).1)
  · unfold transcribeAsyncTrace
    simp

/-- Witness for the corrected C6 at a concrete one-event successful run. -/
theorem C6_progress_monotone_within_run_witness :
    List.Chain' (fun a b : ProcessingStatus × Int => a.2 ≤ b.2)
      (processAudioTrace ⟨true, true⟩ extOkFixture trOkFixture) ∧
    List.Chain' (fun a b : ProcessingStatus × Int => a.2 ≤ b.2)
      (transcribeAsyncTrace [p50Fixture] trOkFixture) ∧
    (transcribeAsyncTrace [p50Fixture] trOkFixture).head? =
      some (ProcessingStatus.TRANSCRIBING, 0) ∧
    analyzeAsyncFirstWrite = (ProcessingStatus.ANALYZING, 10) :=
  C6_progress_monotone_within_run ⟨true, true⟩ extOkFixture trOkFixture
    [p50Fixture] trOkFixture (by simp) (by norm_num [p50Fixture]) rfl rfl

/-! Helper lemmas about the background task / cancellation model. -/

theorem runTaskStep_active (st : JobState) (x : TaskStep) :
    (runTaskStep st x).active = st.active := by
  cases x <;> simp only [runTaskStep] <;> split <;> rfl

theorem runTaskStep_inactive (st : JobState) (x : TaskStep)
    (h : st.active = false) : runTaskStep st x = st := by
  cases x <;> simp only [runTaskStep] <;> simp [h]

theorem runTask_inactive (st : JobState) (steps : List TaskStep)
    (h : st.active = false) : runTask st steps = st := by
  induction steps generalizing st with
  | nil => rfl
  | cons x xs ih =>
    unfold runTask
    rw [List.foldl_cons, runTaskStep_inactive st x h]
    exact ih st h

theorem runTaskStep_nonfinish (st : JobState) (x : TaskStep)
    (hx : x.isFinish = false) :
    (runTaskStep st x).active = st.active ∧
    (runTaskStep st x).session.transcription = st.session.transcription ∧
    (runTaskStep st x).session.transcriptionLanguage =
      st.session.transcriptionLanguage ∧
    (runTaskStep st x).session.transcriptionConfidence =
      st.session.transcriptionConfidence := by
  cases x with
  | start =>
    simp only [runTaskStep]
    split <;> simp [updateProcessingStatus]
  | progressEvent p =>
    simp only [runTaskStep]
    split <;> simp [transcribeAsyncProgressWrite, updateProcessingStatus]
  | finish r => simp [TaskStep.isFinish] at hx

theorem runTask_nonfinish (st : JobState) (steps : List TaskStep)
    (h : ∀ x ∈ steps, x.isFinish = false) :
    (runTask st steps).active = st.active ∧
    (runTask st steps).session.transcription = st.session.transcription ∧
    (runTask st steps).session.transcriptionLanguage =
      st.session.transcriptionLanguage ∧
    (runTask st steps).session.transcriptionConfidence =
      st.session.transcriptionConfidence := by
  induction steps generalizing st with
  | nil => exact ⟨rfl, rfl, rfl, rfl⟩
  | cons x xs ih =>
    have hx := runTaskStep_nonfinish st x (h x (List.mem_cons_self x xs))
    have hxs := ih (runTaskStep st x)
      (fun y hy => h y (List.mem_cons_of_mem x hy))
    unfold runTask at hxs ⊢
    rw [List.foldl_cons]
    exact ⟨hxs.1.trans hx.1, hxs.2.1.trans hx.2.1,
      hxs.2.2.1.trans hx.2.2.1, hxs.2.2.2.trans hx.2.2.2⟩

theorem taskSteps_take_nonfinish (ps : List GeminiProgress)
    (r : TranscriptionResult) (c : ℕ) (hc : c ≤ ps.length + 1) :
    ∀ x ∈ (taskSteps ps r).take c, x.isFinish = false := by
  intro x hx
  unfold taskSteps at hx
  rw [List.take_append_of_le_length (by simpa using hc)] at hx
  have hmem : x ∈ TaskStep.start :: ps.map TaskStep.progressEvent :=
    List.take_subset c _ hx
  rcases List.mem_cons.mp hmem with h | h
  · subst h; rfl
  · rcases List.mem_map.mp h with ⟨p, _, hp⟩
    subst hp; rfl

/-- Claim C7 is false as stated: the cancellation check the background
transcription task applies — `activeTranscriptions.get(sessionId)`, whose
missing entry reads as undefined, hence falsy — returns false for a job id
with no registry entry, and the task then returns without running the
stage (here: a task launched with no entry leaves the session untouched),
rather than treating the missing entry as "proceed normally". -/
theorem C7_counterexample :
    activeGet [] "job-1" = false ∧
    runTask { active := activeGet [] "job-1",
              session := createPodcastSession }
      (taskSteps [p50Fixture] trOkFixture) =
      { active := false, session := createPodcastSession } := by
  constructor
  · rfl
  · exact runTask_inactive _ _ rfl

/-- Claim C7 (corrected): for every job id with no entry in the
cancellation registry the check returns false, and a background
transcription task whose checks see the missing entry performs no session
write at all — the code treats a missing entry as "already cancelled /
stop", not as "proceed normally"; entries are created by the POST handler
before the task is launched, so during a run a missing entry can only mean
the job was cancelled. -/
theorem C7_missing_entry_means_stop (m : List String) (j : String)
    (s : PodcastSession) (ps : List GeminiProgress)
    (r : TranscriptionResult) (h : m.contains j = false) :
    activeGet m j = false ∧
    runTask { active := activeGet m j, session := s } (taskSteps ps r) =
      { active := false, session := s } := by
  have ha : activeGet m j = false := h
  refine ⟨ha, ?_⟩
  rw [ha]
  exact runTask_inactive _ _ rfl

/-- Witness for the corrected C7 on the empty registry. -/
theorem C7_missing_entry_means_stop_witness :
    activeGet [] "job-2" = false ∧
    runTask { active := activeGet [] "job-2",
              session := createPodcastSession }
      (taskSteps [p50Fixture] trFailFixture) =
      { active := false, session := createPodcastSession } :=
  C7_missing_entry_means_stop [] "job-2" createPodcastSession
    [p50Fixture] trFailFixture rfl

/-- Claim C8: cancellation is idempotent at the HTTP surface — a DELETE
for a job with no active entry answers 404 and changes nothing; a
successful DELETE leaves the session in a terminal-like cancelled state
(COMPLETED at progress 60, step "Transcription cancelled") with no error,
and a second DELETE of the same job answers 404 and leaves the state of
the first DELETE unchanged, so cancelling twice equals cancelling once. -/
theorem C8_cancel_idempotent (st : JobState) :
    (st.active = false → deleteHandler st = (CancelHttp.notFound, st)) ∧
    (st.active = true →
      (deleteHandler st).1 = CancelHttp.ok ∧
      (deleteHandler st).2.session.status = ProcessingStatus.COMPLETED ∧
      (deleteHandler st).2.session.progress = 60 ∧
      (deleteHandler st).2.session.error = none ∧
      (deleteHandler ((deleteHandler st).2)).1 = CancelHttp.notFound ∧
      (deleteHandler ((deleteHandler st).2)).2 = (deleteHandler st).2) := by
  constructor
  · intro h
    unfold deleteHandler
    simp [h]
  · intro h
    unfold deleteHandler
    simp [h, cancelWrite, updateProcessingStatus, orNull]

/-- Witness for C8: a job with an active entry and a job with no entry,
both on a concrete session. -/
theorem C8_cancel_idempotent_witness :
    (deleteHandler ⟨false, createPodcastSession⟩ =
      (CancelHttp.notFound, ⟨false, createPodcastSession⟩)) ∧
    (deleteHandler ⟨true, createPodcastSession⟩).1 = CancelHttp.ok ∧
    (deleteHandler ⟨true, createPodcastSession⟩).2.session.status =
      ProcessingStatus.COMPLETED ∧
    (deleteHandler ⟨true, createPodcastSession⟩).2.session.progress = 60 ∧
    (deleteHandler ⟨true, createPodcastSession⟩).2.session.error = none ∧
    (deleteHandler ((deleteHandler ⟨true, createPodcastSession⟩).2)).1 =
      CancelHttp.notFound ∧
    (deleteHandler ((deleteHandler ⟨true, createPodcastSession⟩).2)).2 =
      (deleteHandler ⟨true, createPodcastSession⟩).2 :=
  ⟨(C8_cancel_idempotent ⟨false, createPodcastSession⟩).1 rfl,
   (C8_cancel_idempotent ⟨true, createPodcastSession⟩).2 rfl⟩

/-- Claim C10: if the job's cancellation entry is removed at any point
before the background task's post-completion checkpoint, the task performs
no further session writes: the final state is exactly what the cancel
handler wrote over the task's writes so far (status COMPLETED, progress
60, no error), and a transcript the adapter produced — even successfully —
is discarded, the transcription fields remaining absent. -/
theorem C10_cancel_discards_transcript (c : ℕ) (s0 : PodcastSession)
    (ps : List GeminiProgress) (r : TranscriptionResult)
    (hc : c ≤ ps.length + 1) (h0 : s0.transcription = none)
    (h1 : s0.transcriptionLanguage = none)
    (h2 : s0.transcriptionConfidence = none) :
    (runWithCancelAt c s0 ps r).session.status =
      ProcessingStatus.COMPLETED ∧
    (runWithCancelAt c s0 ps r).session.progress = 60 ∧
    (runWithCancelAt c s0 ps r).session.error = none ∧
    (runWithCancelAt c s0 ps r).session.transcription = none ∧
    (runWithCancelAt c s0 ps r).session.transcriptionLanguage = none ∧
    (runWithCancelAt c s0 ps r).session.transcriptionConfidence = none ∧
    runWithCancelAt c s0 ps r =
      (deleteHandler (runTask ⟨true, s0⟩ ((taskSteps ps r).take c))).2 := by
  have hnf := taskSteps_take_nonfinish ps r c hc
  have hpre := runTask_nonfinish ⟨true, s0⟩ ((taskSteps ps r).take c) hnf
  have hdel : deleteHandler (runTask ⟨true, s0⟩ ((taskSteps ps r).take c)) =
      (CancelHttp.ok, ⟨false, cancelWrite
        (runTask ⟨true, s0⟩ ((taskSteps ps r).take c)).session⟩) := by
    unfold deleteHandler
    rw [hpre.1]
    simp
  have key : runWithCancelAt c s0 ps r =
      ⟨false, cancelWrite
        (runTask ⟨true, s0⟩ ((taskSteps ps r).take c)).session⟩ := by
    simp only [runWithCancelAt]
    rw [hdel]
    exact runTask_inactive _ _ rfl
  rw [key]
  refine ⟨rfl, rfl, rfl, ?_, ?_, ?_, ?_⟩
  · exact hpre.2.1.trans h0
  · exact hpre.2.2.1.trans h1
  · exact hpre.2.2.2.trans h2
  · rw [hdel]

/-- Witness for C10: cancel arrives right after the initial TRANSCRIBING/0
write (c = 1), while the adapter later returns a successful transcript —
which is discarded. -/
theorem C10_cancel_discards_transcript_witness :
    (runWithCancelAt 1 createPodcastSession [p50Fixture]
      trOkFixture).session.status = ProcessingStatus.COMPLETED ∧
    (runWithCancelAt 1 createPodcastSession [p50Fixture]
      trOkFixture).session.progress = 60 ∧
    (runWithCancelAt 1 createPodcastSession [p50Fixture]
      trOkFixture).session.error = none ∧
    (runWithCancelAt 1 createPodcastSession [p50Fixture]
      trOkFixture).session.transcription = none ∧
    (runWithCancelAt 1 createPodcastSession [p50Fixture]
      trOkFixture).session.transcriptionLanguage = none ∧
    (runWithCancelAt 1 createPodcastSession [p50Fixture]
      trOkFixture).session.transcriptionConfidence = none ∧
    runWithCancelAt 1 createPodcastSession [p50Fixture] trOkFixture =
      (deleteHandler (runTask ⟨true, createPodcastSession⟩
        ((taskSteps [p50Fixture] trOkFixture).take 1))).2 :=
  C10_cancel_discards_transcript 1 createPodcastSession [p50Fixture]
    trOkFixture (by norm_num) rfl rfl rfl

/-- Claim C9: a rerun request on a session already holding that stage's
results clears the stage's own result fields before the stage re-executes
— re-transcription clears transcription, transcriptionLanguage and
transcriptionConfidence; re-analysis clears all four of summary, topics,
mindmap and insights — so a status read immediately after the rerun
request shows those fields absent. -/
theorem C9_rerun_clears_stage_fields (s s' : PodcastSession)
    (ht : truthy s.transcription = true)
    (ha : (truthy s'.summary || s'.topics.isSome || s'.mindmap.isSome ||
      s'.insights.isSome) = true) :
    (transcribePostClear s).transcription = none ∧
    (transcribePostClear s).transcriptionLanguage = none ∧
    (transcribePostClear s).transcriptionConfidence = none ∧
    (analyzePostClear s').summary = none ∧
    (analyzePostClear s').topics = none ∧
    (analyzePostClear s').mindmap = none ∧
    (analyzePostClear s').insights = none := by
  unfold transcribePostClear analyzePostClear
  simp [ht, ha]

/-- Witness for C9 on concrete sessions holding stale results. -/
theorem C9_rerun_clears_stage_fields_witness :
    (transcribePostClear { createPodcastSession with
      transcription := some "old transcript" }).transcription = none ∧
    (transcribePostClear { createPodcastSession with
      transcription := some "old transcript" }).transcriptionLanguage =
      none ∧
    (transcribePostClear { createPodcastSession with
      transcription := some "old transcript" }).transcriptionConfidence =
      none ∧
    (analyzePostClear { createPodcastSession with
      summary := some "old summary" }).summary = none ∧
    (analyzePostClear { createPodcastSession with
      summary := some "old summary" }).topics = none ∧
    (analyzePostClear { createPodcastSession with
      summary := some "old summary" }).mindmap = none ∧
    (analyzePostClear { createPodcastSession with
      summary := some "old summary" }).insights = none :=
  C9_rerun_clears_stage_fields
    { createPodcastSession with transcription := some "old transcript" }
    { createPodcastSession with summary := some "old summary" }
    (by decide) (by decide)
